import Mathlib

/-
Verification of the fan-control core (fan_control.py, fan_monitor.py).

Shallow embedding conventions:
* Python floats are modelled as exact rationals (ℚ); Python ints as ℤ.
* `read_file` catches file errors and returns None; a sysfs read is
  therefore modelled as a total `RawReading`: `unavailable` stands for a
  None result or an empty/whitespace file (both falsy in `if value:`),
  `unparsable` for a non-empty string on which `int()` raises, and
  `value n` for a non-empty string parsing to the integer n.
* Python `int()` truncates toward zero; `truncQ` below is that operation.
* Python dicts keyed by sensor label are modelled as association lists in
  sensor order (the claims under study never involve duplicate labels).
-/

namespace FanCtl

/-- Python `int()` on a rational: truncation toward zero. -/
def truncQ (q : ℚ) : ℤ := if 0 ≤ q then ⌊q⌋ else ⌈q⌉

/-- The curve parameters set on the controller (`self.temp_min`,
`self.temp_max`, `self.pwm_min`, `self.pwm_max`). -/
structure Config where
  temp_min : ℚ
  temp_max : ℚ
  pwm_min : ℤ
  pwm_max : ℤ
deriving DecidableEq

/-- The defaults from `FanController.__init__` / `load_config`. -/
def defaultConfig : Config := { temp_min := 45, temp_max := 80, pwm_min := 10, pwm_max := 255 }

/-- `FanController.calculate_pwm_from_temp` (identical in fan_control.py
lines 537-547 and fan_monitor.py lines 292-302). -/
def calculate_pwm_from_temp (c : Config) (temp : ℚ) : ℤ :=
  if temp ≤ c.temp_min then c.pwm_min
  else if temp ≥ c.temp_max then c.pwm_max
  else
    truncQ ((c.pwm_min : ℚ) +
      (temp - c.temp_min) / (c.temp_max - c.temp_min) * ((c.pwm_max : ℚ) - (c.pwm_min : ℚ)))

/-- Result of `self.read_file` on a sensor file followed by Python
truthiness and `int()` parsing (see the file header). -/
inductive RawReading where
  | unavailable : RawReading
  | unparsable : RawReading
  | value : ℤ → RawReading
deriving DecidableEq

/-- A temperature source is either a sysfs `temp*_input` file or the
virtual `"nvidia-smi"` sensor, whose per-tick reading is the parsed
`nvidia-smi` output (none when the helper fails or times out). -/
inductive SensorKind where
  | sysfs : RawReading → SensorKind
  | nvidia : Option ℚ → SensorKind
deriving DecidableEq

/-- An entry of `self.temp_sensors` in fan_control.py: `(path, label,
device_name)`; the path is abstracted to the reading it currently yields. -/
structure TempSensor where
  label : String
  device_name : String
  kind : SensorKind
deriving DecidableEq

/-- The discovery-time validation of a temperature candidate in
`_detect_hardware` (fan_control.py lines 165-176): `value = read_file(f);
if value: try: t = int(value)/1000; if t <= 0 or t > 120: continue;
except: continue; append`.  An unavailable (falsy) reading skips the
validation block entirely and the sensor is appended. -/
def discover_accepts (r : RawReading) : Bool :=
  match r with
  | .unavailable => true
  | .unparsable => false
  | .value n => if (n : ℚ) / 1000 ≤ 0 ∨ (n : ℚ) / 1000 > 120 then false else true

/-- A temperature candidate enumerated by the hwmon scan, before the
discovery filter. -/
structure TempCandidate where
  label : String
  device_name : String
  first_reading : RawReading
deriving DecidableEq

/-- The registry of temperature sensors `_detect_hardware` builds from the
candidates (fan_control.py): built once, never revisited. -/
def detect_temp_sensors (cands : List TempCandidate) : List TempCandidate :=
  cands.filter (fun c => discover_accepts c.first_reading)

/-- One sensor's contribution to `get_temperatures` (fan_control.py lines
413-444): nvidia readings are taken as-is, sysfs readings are kept only
when `0 < temp_c < 120`. -/
def temp_entry (s : TempSensor) : Option (String × ℚ) :=
  match s.kind with
  | .nvidia r => r.map (fun t => (s.label, t))
  | .sysfs r =>
    match r with
    | .value n =>
      if 0 < (n : ℚ) / 1000 ∧ (n : ℚ) / 1000 < 120 then some (s.label, (n : ℚ) / 1000)
      else none
    | _ => none

/-- `FanController.get_temperatures` (fan_control.py lines 413-444). -/
def get_temperatures (ss : List TempSensor) : List (String × ℚ) :=
  ss.filterMap temp_entry

/-- One sensor's contribution to `get_control_temperatures` (fan_control.py
lines 446-481): sensors whose device is neither coretemp nor nvidia are
skipped, the rest are read exactly as in `get_temperatures`. -/
def control_entry (s : TempSensor) : Option (String × ℚ) :=
  if s.device_name = "coretemp" ∨ s.device_name = "nvidia" then temp_entry s else none

/-- `FanController.get_control_temperatures` (fan_control.py lines 446-481). -/
def get_control_temperatures (ss : List TempSensor) : List (String × ℚ) :=
  ss.filterMap control_entry

/-- An entry of `self.fan_sensors`: `(path, label)`, the path abstracted to
its current reading. -/
structure FanSensor where
  label : String
  reading : RawReading
deriving DecidableEq

/-- One sensor's contribution to `get_fan_speeds` in fan_control.py (lines
491-505): every parsed integer is kept, 0 RPM included. -/
def fan_entry (s : FanSensor) : Option (String × ℤ) :=
  match s.reading with
  | .value n => some (s.label, n)
  | _ => none

/-- `FanController.get_fan_speeds` in fan_control.py (lines 491-505). -/
def get_fan_speeds (ss : List FanSensor) : List (String × ℤ) :=
  ss.filterMap fan_entry

/-- The base PWM target computed by fan_control.py's `auto_control` from
the control sensors: `max(control_temps.values())` fed to the curve; none
when there is no control reading (`if not control_temps: ... continue`). -/
def fc_base_pwm (c : Config) (ss : List TempSensor) : Option ℤ :=
  ((get_control_temperatures ss).map Prod.snd).max?.map (calculate_pwm_from_temp c)

end FanCtl

namespace FanMonitor

open FanCtl

/-- One sensor's contribution to `get_fan_speeds` in fan_monitor.py (lines
242-257): readings with `rpm > 0` only — a 0 RPM reading is dropped. -/
def fan_entry (s : FanSensor) : Option (String × ℤ) :=
  match s.reading with
  | .value n => if n > 0 then some (s.label, n) else none
  | _ => none

/-- `FanController.get_fan_speeds` in fan_monitor.py (lines 242-257). -/
def get_fan_speeds (ss : List FanSensor) : List (String × ℤ) :=
  ss.filterMap fan_entry

/-- The base PWM target computed by fan_monitor.py's `auto_control` (lines
608-620): it calls `get_temperatures` — ALL temperature sensors, with no
device restriction (fan_monitor.py sensors carry no device name at all;
the device field of `TempSensor` is simply ignored here, faithfully to the
per-sensor reading logic which is identical). -/
def fm_base_pwm (c : Config) (ss : List TempSensor) : Option ℤ :=
  ((get_temperatures ss).map Prod.snd).max?.map (calculate_pwm_from_temp c)

end FanMonitor

namespace FanCtl

/-- The mutable control fields of the controller relevant to one loop
iteration: `self.current_pwm` (None before the first tick) and
`self.manual_pwm_offset`. -/
structure ControlState where
  current_pwm : Option ℤ
  manual_pwm_offset : ℤ
deriving DecidableEq

/-- The asymmetric-response block of `auto_control` (fan_control.py lines
862-872): bootstrap when `current_pwm` is None, instantaneous rise when
the target is above it, otherwise a fall limited to `pwm_decrease_step`. -/
def ramp_apply (step : ℤ) (cur : Option ℤ) (target : ℤ) : ℤ :=
  match cur with
  | none => target
  | some c => if target > c then target else c - min (c - target) step

/-- `max(0, min(255, ...))`, the offset clamp of fan_control.py line 860. -/
def clamp255 (v : ℤ) : ℤ := max 0 (min 255 v)

/-- The offset target of one iteration (fan_control.py lines 859-860):
`target_pwm = max(0, min(255, base_pwm + self.manual_pwm_offset))`. -/
def tick_target (c : Config) (s : ControlState) (maxTemp : ℚ) : ℤ :=
  clamp255 (calculate_pwm_from_temp c maxTemp + s.manual_pwm_offset)

/-- One `Running` iteration of `auto_control` on a control temperature
(fan_control.py lines 856-875): returns the PWM value applied this tick
and the updated state (`self.current_pwm = pwm_value` being the only
write to that field in the loop). -/
def tick (c : Config) (step : ℤ) (s : ControlState) (maxTemp : ℚ) : ℤ × ControlState :=
  let target := tick_target c s maxTemp
  let pwm := ramp_apply step s.current_pwm target
  (pwm, { s with current_pwm := some pwm })

/-- `FanController.set_pwm_value` (fan_control.py lines 591-597) with the
underlying `write_file` success abstracted by `writeOk`: the returned Bool
is the Python return value, the list the values actually written to the
pwm file. -/
def set_pwm_value (writeOk : Bool) (value : ℤ) : Bool × List ℤ :=
  if 0 ≤ value ∧ value ≤ 255 then (writeOk, [value]) else (false, [])

/-- Outcome of `read_file` on the enable file during the shutdown
read-back.  `read_file` (fan_control.py lines 120-125) catches only
FileNotFoundError and PermissionError, returning None (falsy); any other
OSError from `read_text` — e.g. EIO from a failing hwmon device —
propagates out of `read_file` uncaught. -/
inductive ReadOutcome where
  | ok : String → ReadOutcome
  | handled : ReadOutcome
  | raised : ReadOutcome
deriving DecidableEq

/-- A PWM channel of `self.pwm_controls` together with what its sysfs
files do during shutdown: whether writing `"2"` to the enable file
succeeds (`write_file`, lines 127-135, catches OSError broadly, so a
write reports False rather than raising), what reading the enable file
back then does, and whether writing to the pwm file succeeds. -/
structure PwmChannel where
  label : String
  enable_write_ok : Bool
  enable_read_back : ReadOutcome
  pwm_write_ok : Bool
deriving DecidableEq

/-- `FanController.restore_bios_control` (fan_control.py lines 553-564):
write `"2"`; when that write succeeded, read the file back and fail
unless it reads exactly `"2"` (a None from a handled read error is not
`"2"`).  A read-back raising an uncaught OSError propagates out of the
function, modelled as `Except.error`. -/
def restore_bios_control (ch : PwmChannel) : Except Unit Bool :=
  let write_result := ch.enable_write_ok
  if write_result then
    match ch.enable_read_back with
    | .raised => Except.error ()
    | .handled => Except.ok false
    | .ok v => if v ≠ "2" then Except.ok false else Except.ok write_result
  else Except.ok write_result

/-- A file operation performed by the shutdown sequence. -/
inductive FileOp where
  | writeEnable : String → String → FileOp
  | readEnable : String → FileOp
  | writePwm : String → String → FileOp
deriving DecidableEq

/-- The file operations the shutdown loop performs on one channel: the
enable write, the read-back attempt (only after a successful write; an
attempt that raises still happened), and the 50% fallback
`write_file(pwm_path, "128")` when the channel failed without raising. -/
def restore_channel_ops (ch : PwmChannel) : List FileOp :=
  [FileOp.writeEnable ch.label "2"]
    ++ (if ch.enable_write_ok then [FileOp.readEnable ch.label] else [])
    ++ (match restore_bios_control ch with
        | .error _ => []
        | .ok true => []
        | .ok false => [FileOp.writePwm ch.label "128"])

/-- `FanController.restore_all_bios_control` (fan_control.py lines
566-589) in loop order: the file operations performed, and either the
completed report (failed labels, success count) or `Except.error` when a
channel's read-back raised — the exception propagates out of the `for`
loop, and the remaining channels are never attempted. -/
def restore_all_bios_control : List PwmChannel → List FileOp × Except Unit (List String × ℕ)
  | [] => ([], Except.ok ([], 0))
  | ch :: rest =>
    match restore_bios_control ch with
    | .error _ => (restore_channel_ops ch, Except.error ())
    | .ok true =>
      let r := restore_all_bios_control rest
      (restore_channel_ops ch ++ r.1,
       match r.2 with
       | .error _ => Except.error ()
       | .ok (fails, n) => Except.ok (fails, n + 1))
    | .ok false =>
      let r := restore_all_bios_control rest
      (restore_channel_ops ch ++ r.1,
       match r.2 with
       | .error _ => Except.error ()
       | .ok (fails, n) => Except.ok (ch.label :: fails, n))

/-- An externally observable effect of `auto_control`; `restore` marks the
single call site of `restore_all_bios_control` in its `finally` block. -/
inductive Effect where
  | setManual : String → Effect
  | writePwm : String → ℤ → Effect
  | restore : Effect
deriving DecidableEq

/-- A logical key event delivered by `KeyboardHandler.get_key` during the
interactive sleep. -/
inductive Key where
  | quit : Key
  | increase : Key
  | decrease : Key
deriving DecidableEq

/-- What the environment does during one iteration of the `while True`
loop of `auto_control`: a control-temperature reading with an optional key
during the sleep, no control readings at all, a KeyboardInterrupt, or any
other exception raised inside the loop body. -/
inductive IterInput where
  | reading : ℚ → Option Key → IterInput
  | noTemps : IterInput
  | interrupt : IterInput
  | error : IterInput
deriving DecidableEq

/-- Why the `try` body of `auto_control` stopped running. -/
inductive ExitCause where
  | quitKey : ExitCause
  | iterCap : ExitCause
  | interrupted : ExitCause
  | errored : ExitCause
  | inputsEnded : ExitCause
deriving DecidableEq

/-- `if max_iterations and iteration_count >= max_iterations` (line 901):
None and 0 are both falsy, so neither caps the run. -/
def cap_reached (maxIter : Option ℕ) (count : ℕ) : Bool :=
  match maxIter with
  | none => false
  | some m => if m ≠ 0 ∧ m ≤ count then true else false

/-- The `while True` body of `auto_control` (fan_control.py lines 848-921)
driven by a script of per-iteration inputs: a `noTemps` iteration prints
and continues without writing or counting; a reading computes the tick,
writes the value to every channel, bumps the count, breaks at the cap and
otherwise handles the key seen during the sleep (`q` returns, `w`/`s`
adjust the offset by ±10 clamped to ±255 and re-tick immediately).
`interrupt`/`error` model an exception arriving anywhere in the iteration.
Returns the write effects in order and the cause of exit. -/
def control_loop (c : Config) (step : ℤ) (pwms : List String) (maxIter : Option ℕ) :
    List IterInput → ControlState → ℕ → List Effect × ExitCause
  | [], _, _ => ([], ExitCause.inputsEnded)
  | input :: rest, s, count =>
    match input with
    | .interrupt => ([], ExitCause.interrupted)
    | .error => ([], ExitCause.errored)
    | .noTemps => control_loop c step pwms maxIter rest s count
    | .reading t key =>
      let pwm := (tick c step s t).1
      let s2 := (tick c step s t).2
      let writes := pwms.map (fun l => Effect.writePwm l pwm)
      if cap_reached maxIter (count + 1) then (writes, ExitCause.iterCap)
      else
        match key with
        | some .quit => (writes, ExitCause.quitKey)
        | some .increase =>
          let s3 : ControlState := { s2 with manual_pwm_offset := min (s2.manual_pwm_offset + 10) 255 }
          let r := control_loop c step pwms maxIter rest s3 (count + 1)
          (writes ++ r.1, r.2)
        | some .decrease =>
          let s3 : ControlState := { s2 with manual_pwm_offset := max (s2.manual_pwm_offset - 10) (-255) }
          let r := control_loop c step pwms maxIter rest s3 (count + 1)
          (writes ++ r.1, r.2)
        | none =>
          let r := control_loop c step pwms maxIter rest s2 (count + 1)
          (writes ++ r.1, r.2)

/-- `FanController.auto_control` (fan_control.py lines 818-927).  The
manual-mode setup loop (lines 835-838) and the `time.sleep(1)` (line 840)
run BEFORE the `try:` of line 842, so a KeyboardInterrupt delivered during
that sleep — `interruptDuringSetupSleep` — propagates without reaching the
`finally` block; in every other case the `try`/`finally` appends exactly
one `restore` effect (the inner `except KeyboardInterrupt` swallows an
interrupt from the loop, an `error` re-raises after the `finally`). -/
def auto_control (c : Config) (step : ℤ) (pwms : List String) (maxIter : Option ℕ)
    (interruptDuringSetupSleep : Bool) (inputs : List IterInput) : List Effect × ExitCause :=
  let setup := pwms.map Effect.setManual
  if interruptDuringSetupSleep then (setup, ExitCause.interrupted)
  else
    let r := control_loop c step pwms maxIter inputs ⟨none, 0⟩ 0
    (setup ++ r.1 ++ [Effect.restore], r.2)

/-- Concrete sensor lists for the settled claims. -/
def coreSensor : TempSensor := ⟨"Core 0", "coretemp", SensorKind.sysfs (RawReading.value 50000)⟩

/-- A display-only (Other-category) sensor reading 90 °C. -/
def nvmeSensor : TempSensor := ⟨"Composite", "nvme", SensorKind.sysfs (RawReading.value 90000)⟩

/-- A sensor registry holding one control sensor at 50 °C and one
Other-category sensor at 90 °C. -/
def mixedSensors : List TempSensor := [coreSensor, nvmeSensor]

/-- A fan sensor whose file reads exactly `0`. -/
def stoppedFan : FanSensor := ⟨"fan1", RawReading.value 0⟩

/-- A sysfs temperature sensor reading exactly 120.0 °C (file value
120000 millidegrees). -/
def limitSensor : TempSensor := ⟨"Core 7", "coretemp", SensorKind.sysfs (RawReading.value 120000)⟩

/-! Helper lemmas about truncation toward zero. -/

theorem truncQ_mono {a b : ℚ} (h : a ≤ b) : truncQ a ≤ truncQ b := by
  unfold truncQ
  by_cases ha : 0 ≤ a <;> by_cases hb : 0 ≤ b
  · rw [if_pos ha, if_pos hb]; exact Int.floor_le_floor h
  · exact absurd (ha.trans h) hb
  · rw [if_neg ha, if_pos hb]
    have h1 : ⌈a⌉ ≤ 0 := Int.ceil_le.mpr (by exact_mod_cast le_of_not_le ha)
    have h2 : (0 : ℤ) ≤ ⌊b⌋ := Int.floor_nonneg.mpr hb
    omega
  · rw [if_neg ha, if_neg hb]; exact Int.ceil_le_ceil h

theorem le_truncQ {n : ℤ} {q : ℚ} (h : (n : ℚ) ≤ q) : n ≤ truncQ q := by
  unfold truncQ
  by_cases h0 : 0 ≤ q
  · simpa [h0] using Int.le_floor.mpr h
  · simp only [h0, if_false]
    exact_mod_cast Int.cast_le.mp (h.trans (Int.le_ceil q))

theorem truncQ_le {n : ℤ} {q : ℚ} (h : q ≤ (n : ℚ)) : truncQ q ≤ n := by
  unfold truncQ
  by_cases h0 : 0 ≤ q
  · simp only [h0, if_true]
    exact_mod_cast Int.cast_le.mp ((Int.floor_le q).trans h)
  · simp only [h0, if_false]
    exact Int.ceil_le.mpr h

/-! Helper lemmas about the interpolation formula of the else branch of
`calculate_pwm_from_temp`. -/

theorem interp_ge (c : Config) (t : ℚ) (h2 : c.pwm_min ≤ c.pwm_max)
    (ha : c.temp_min < t) (hd : c.temp_min < c.temp_max) :
    (c.pwm_min : ℚ) ≤
      (c.pwm_min : ℚ) + (t - c.temp_min) / (c.temp_max - c.temp_min) * ((c.pwm_max : ℚ) - c.pwm_min) := by
  have hden : (0 : ℚ) < c.temp_max - c.temp_min := by linarith
  have hr : 0 ≤ (t - c.temp_min) / (c.temp_max - c.temp_min) :=
    div_nonneg (by linarith) hden.le
  have hpw : (0 : ℚ) ≤ (c.pwm_max : ℚ) - c.pwm_min := by
    have : (c.pwm_min : ℚ) ≤ (c.pwm_max : ℚ) := by exact_mod_cast h2
    linarith
  nlinarith [mul_nonneg hr hpw]

theorem interp_le (c : Config) (t : ℚ) (h2 : c.pwm_min ≤ c.pwm_max)
    (hb : t < c.temp_max) (hd : c.temp_min < c.temp_max) :
    (c.pwm_min : ℚ) + (t - c.temp_min) / (c.temp_max - c.temp_min) * ((c.pwm_max : ℚ) - c.pwm_min) ≤
      (c.pwm_max : ℚ) := by
  have hden : (0 : ℚ) < c.temp_max - c.temp_min := by linarith
  have hr1 : (t - c.temp_min) / (c.temp_max - c.temp_min) ≤ 1 := by
    rw [div_le_one hden]; linarith
  have hpw : (0 : ℚ) ≤ (c.pwm_max : ℚ) - c.pwm_min := by
    have : (c.pwm_min : ℚ) ≤ (c.pwm_max : ℚ) := by exact_mod_cast h2
    linarith
  nlinarith [mul_le_of_le_one_left hpw hr1]

theorem interp_mono (c : Config) {t1 t2 : ℚ} (h2 : c.pwm_min ≤ c.pwm_max)
    (hd : c.temp_min < c.temp_max) (h12 : t1 ≤ t2) :
    (c.pwm_min : ℚ) + (t1 - c.temp_min) / (c.temp_max - c.temp_min) * ((c.pwm_max : ℚ) - c.pwm_min) ≤
      (c.pwm_min : ℚ) + (t2 - c.temp_min) / (c.temp_max - c.temp_min) * ((c.pwm_max : ℚ) - c.pwm_min) := by
  have hden : (0 : ℚ) < c.temp_max - c.temp_min := by linarith
  have hr : (t1 - c.temp_min) / (c.temp_max - c.temp_min) ≤
      (t2 - c.temp_min) / (c.temp_max - c.temp_min) :=
    div_le_div_of_nonneg_right (by linarith) hden.le
  have hpw : (0 : ℚ) ≤ (c.pwm_max : ℚ) - c.pwm_min := by
    have : (c.pwm_min : ℚ) ≤ (c.pwm_max : ℚ) := by exact_mod_cast h2
    linarith
  nlinarith [mul_le_mul_of_nonneg_right hr hpw]

/-- In the open interval the curve takes the else branch. -/
theorem calc_eq_interp (c : Config) (t : ℚ) (ha : c.temp_min < t) (hb : t < c.temp_max) :
    calculate_pwm_from_temp c t =
      truncQ ((c.pwm_min : ℚ) +
        (t - c.temp_min) / (c.temp_max - c.temp_min) * ((c.pwm_max : ℚ) - (c.pwm_min : ℚ))) := by
  unfold calculate_pwm_from_temp
  rw [if_neg (not_le.mpr ha), if_neg (not_le.mpr hb)]

end FanCtl

namespace FanCtl

/-- C2: for every configuration with temp_min < temp_max and
pwm_min ≤ pwm_max, `calculate_pwm_from_temp` returns pwm_min when
temp ≤ temp_min, pwm_max when temp ≥ temp_max, and otherwise
pwm_min + (temp − temp_min)/(temp_max − temp_min) × (pwm_max − pwm_min)
truncated to an integer (`truncQ`, Python `int()`). -/
theorem calculate_pwm_spec (c : Config) (temp : ℚ)
    (h1 : c.temp_min < c.temp_max) (h2 : c.pwm_min ≤ c.pwm_max) :
    (temp ≤ c.temp_min → calculate_pwm_from_temp c temp = c.pwm_min) ∧
    (c.temp_max ≤ temp → calculate_pwm_from_temp c temp = c.pwm_max) ∧
    (c.temp_min < temp → temp < c.temp_max →
      calculate_pwm_from_temp c temp =
        truncQ ((c.pwm_min : ℚ) +
          (temp - c.temp_min) / (c.temp_max - c.temp_min) * ((c.pwm_max : ℚ) - (c.pwm_min : ℚ)))) := by
  refine ⟨fun h => ?_, fun h => ?_, fun ha hb => calc_eq_interp c temp ha hb⟩
  · unfold calculate_pwm_from_temp
    rw [if_pos h]
  · unfold calculate_pwm_from_temp
    rw [if_neg (not_le.mpr (lt_of_lt_of_le h1 h)), if_pos h]

/-- Witness for C2 at the default configuration: 30 °C is below the
curve, 90 °C above it, 50 °C interpolates to 45. -/
theorem calculate_pwm_spec_witness :
    calculate_pwm_from_temp defaultConfig 30 = 10 ∧
    calculate_pwm_from_temp defaultConfig 90 = 255 ∧
    calculate_pwm_from_temp defaultConfig 50 = 45 := by
  have hw : defaultConfig.temp_min < defaultConfig.temp_max := by norm_num [defaultConfig]
  have hp : defaultConfig.pwm_min ≤ defaultConfig.pwm_max := by norm_num [defaultConfig]
  refine ⟨(calculate_pwm_spec defaultConfig 30 hw hp).1 (by norm_num [defaultConfig]),
          (calculate_pwm_spec defaultConfig 90 hw hp).2.1 (by norm_num [defaultConfig]), ?_⟩
  rw [(calculate_pwm_spec defaultConfig 50 hw hp).2.2 (by norm_num [defaultConfig])
        (by norm_num [defaultConfig])]
  norm_num [defaultConfig, truncQ]

/-- C3: with a nonnegative decrease step (a configuration precondition,
`pwm_decrease_step ≥ 0`), the ramp smoother bootstraps to the target when
`current_pwm` is None, returns exactly the target on a rise
(target ≥ current), on a fall returns current − min(current − target,
step) — so the per-step decrease is at most `step` and the result is at
least the target — and the tick stores the returned value back into
`current_pwm`, the loop's only write to that field. -/
theorem ramp_smoother_spec (c : Config) (step : ℤ) (s : ControlState) (maxTemp : ℚ)
    (target : ℤ) (hstep : 0 ≤ step) :
    (ramp_apply step none target = target) ∧
    (∀ cur : ℤ, cur ≤ target → ramp_apply step (some cur) target = target) ∧
    (∀ cur : ℤ, target < cur →
      ramp_apply step (some cur) target = cur - min (cur - target) step ∧
      cur - ramp_apply step (some cur) target ≤ step ∧
      target ≤ ramp_apply step (some cur) target) ∧
    ((tick c step s maxTemp).2.current_pwm = some (tick c step s maxTemp).1 ∧
     (tick c step s maxTemp).2.manual_pwm_offset = s.manual_pwm_offset) := by
  refine ⟨rfl, fun cur h => ?_, fun cur h => ?_, rfl, rfl⟩
  · simp only [ramp_apply]
    by_cases hgt : target > cur
    · rw [if_pos hgt]
    · have heq : target = cur := le_antisymm (not_lt.mp hgt) h
      subst heq
      rw [if_neg hgt]
      omega
  · have hngt : ¬ target > cur := by omega
    simp only [ramp_apply]
    rw [if_neg hngt]
    refine ⟨rfl, ?_, ?_⟩ <;> omega

/-- Witness for C3 on a fall from 100 toward 90 with step 5. -/
theorem ramp_smoother_spec_witness :
    ramp_apply 5 (some 100) 90 = 100 - min (100 - 90) 5 ∧
    100 - ramp_apply 5 (some 100) 90 ≤ 5 ∧
    90 ≤ ramp_apply 5 (some 100) 90 :=
  (ramp_smoother_spec defaultConfig 5 ⟨none, 0⟩ 30 90 (by norm_num)).2.2.1 100 (by norm_num)

/-- C4: with a nonnegative decrease step (configuration precondition) and
`current_pwm` either absent or already in [0,255], the offset target of an
iteration is clamp(base + manual_pwm_offset, 0, 255), the value applied
this tick and the stored `current_pwm` are in [0,255], and
`set_pwm_value` returns failure without any write for a value outside
[0,255]. -/
theorem tick_pwm_in_range (c : Config) (step : ℤ) (s : ControlState) (t : ℚ)
    (hstep : 0 ≤ step)
    (hoff : -255 ≤ s.manual_pwm_offset ∧ s.manual_pwm_offset ≤ 255)
    (hcur : ∀ p : ℤ, s.current_pwm = some p → 0 ≤ p ∧ p ≤ 255) :
    tick_target c s t = max 0 (min 255 (calculate_pwm_from_temp c t + s.manual_pwm_offset)) ∧
    (0 ≤ (tick c step s t).1 ∧ (tick c step s t).1 ≤ 255) ∧
    (tick c step s t).2.current_pwm = some (tick c step s t).1 ∧
    (∀ (w : Bool) (v : ℤ), ¬ (0 ≤ v ∧ v ≤ 255) → set_pwm_value w v = (false, [])) := by
  have htar : 0 ≤ tick_target c s t ∧ tick_target c s t ≤ 255 := by
    unfold tick_target clamp255
    omega
  refine ⟨rfl, ?_, rfl, fun w v hv => by simp [set_pwm_value, hv]⟩
  show 0 ≤ ramp_apply step s.current_pwm (tick_target c s t) ∧
      ramp_apply step s.current_pwm (tick_target c s t) ≤ 255
  cases hc : s.current_pwm with
  | none => simp only [ramp_apply]; omega
  | some p =>
    have hp := hcur p hc
    simp only [ramp_apply]
    by_cases hgt : tick_target c s t > p
    · rw [if_pos hgt]; omega
    · rw [if_neg hgt]
      rcases min_choice (p - tick_target c s t) step with hmin | hmin <;> rw [hmin] <;> omega

/-- Witness for C4 at 90 °C with state 200/offset 0: the tick applies 255
and an out-of-range request 300 is rejected without a write. -/
theorem tick_pwm_in_range_witness :
    (0 ≤ (tick defaultConfig 5 ⟨some 200, 0⟩ 90).1 ∧
     (tick defaultConfig 5 ⟨some 200, 0⟩ 90).1 ≤ 255) ∧
    set_pwm_value true 300 = (false, []) :=
  have h := tick_pwm_in_range defaultConfig 5 ⟨some 200, 0⟩ 90 (by norm_num)
    (by exact ⟨by norm_num, by norm_num⟩)
    (by intro p hp; cases hp; exact ⟨by norm_num, by norm_num⟩)
  ⟨h.2.1, h.2.2.2 true 300 (by norm_num)⟩

/-- C6 as stated is false: at the default configuration (temp_min = 45 <
temp_max = 80, pwm_min = 10 ≤ pwm_max = 255) the temperature 45.1 lies
strictly inside the interval, yet the interpolated value 10.7 truncates
to 10 = pwm_min — not strictly above it. -/
theorem calc_pwm_strict_counterexample :
    defaultConfig.temp_min < (451 / 10 : ℚ) ∧ (451 / 10 : ℚ) < defaultConfig.temp_max ∧
    defaultConfig.pwm_min ≤ defaultConfig.pwm_max ∧
    calculate_pwm_from_temp defaultConfig (451 / 10) = defaultConfig.pwm_min := by
  refine ⟨by norm_num [defaultConfig], by norm_num [defaultConfig],
          by norm_num [defaultConfig], ?_⟩
  rw [calc_eq_interp defaultConfig (451 / 10) (by norm_num [defaultConfig])
        (by norm_num [defaultConfig])]
  norm_num [defaultConfig, truncQ]

/-- C6 amended: on the open interval the curve is monotonically
non-decreasing in temp, and its result lies between pwm_min and pwm_max
inclusive (truncation can make it hit pwm_min, so the bound cannot be
strict). -/
theorem calc_pwm_mono_bounds (c : Config) (t1 t2 : ℚ)
    (h1 : c.temp_min < c.temp_max) (h2 : c.pwm_min ≤ c.pwm_max)
    (ha1 : c.temp_min < t1) (hb1 : t1 < c.temp_max)
    (ha2 : c.temp_min < t2) (hb2 : t2 < c.temp_max)
    (h12 : t1 ≤ t2) :
    calculate_pwm_from_temp c t1 ≤ calculate_pwm_from_temp c t2 ∧
    c.pwm_min ≤ calculate_pwm_from_temp c t1 ∧
    calculate_pwm_from_temp c t1 ≤ c.pwm_max := by
  rw [calc_eq_interp c t1 ha1 hb1, calc_eq_interp c t2 ha2 hb2]
  refine ⟨truncQ_mono (interp_mono c h2 h1 h12),
          le_truncQ (interp_ge c t1 h2 ha1 h1),
          truncQ_le (interp_le c t1 h2 hb1 h1)⟩

/-- Witness for the amended C6 at the default configuration with
temperatures 50 and 60 inside the interval. -/
theorem calc_pwm_mono_bounds_witness :
    calculate_pwm_from_temp defaultConfig 50 ≤ calculate_pwm_from_temp defaultConfig 60 ∧
    defaultConfig.pwm_min ≤ calculate_pwm_from_temp defaultConfig 50 ∧
    calculate_pwm_from_temp defaultConfig 50 ≤ defaultConfig.pwm_max :=
  calc_pwm_mono_bounds defaultConfig 50 60 (by norm_num [defaultConfig])
    (by norm_num [defaultConfig]) (by norm_num [defaultConfig]) (by norm_num [defaultConfig])
    (by norm_num [defaultConfig]) (by norm_num [defaultConfig]) (by norm_num)

end FanCtl

namespace FanCtl

/-- The loop body of `auto_control` never calls the restoration routine:
only the `finally` block does. -/
theorem control_loop_no_restore (c : Config) (step : ℤ) (pwms : List String)
    (maxIter : Option ℕ) (inputs : List IterInput) :
    ∀ (s : ControlState) (count : ℕ),
      Effect.restore ∉ (control_loop c step pwms maxIter inputs s count).1 := by
  induction inputs with
  | nil => intro s count; simp [control_loop]
  | cons input rest ih =>
    intro s count
    cases input with
    | interrupt => simp [control_loop]
    | error => simp [control_loop]
    | noTemps => simpa only [control_loop] using ih s count
    | reading t key =>
      simp only [control_loop]
      by_cases hcap : cap_reached maxIter (count + 1) = true
      · rw [if_pos hcap]
        intro hmem
        rcases List.mem_map.mp hmem with ⟨l, _, hl⟩
        exact Effect.noConfusion hl
      · rw [if_neg hcap]
        cases key with
        | none =>
          intro hmem
          rcases List.mem_append.mp hmem with h | h
          · rcases List.mem_map.mp h with ⟨l, _, hl⟩
            exact Effect.noConfusion hl
          · exact ih _ _ h
        | some k =>
          cases k with
          | quit =>
            intro hmem
            rcases List.mem_map.mp hmem with ⟨l, _, hl⟩
            exact Effect.noConfusion hl
          | increase =>
            intro hmem
            rcases List.mem_append.mp hmem with h | h
            · rcases List.mem_map.mp h with ⟨l, _, hl⟩
              exact Effect.noConfusion hl
            · exact ih _ _ h
          | decrease =>
            intro hmem
            rcases List.mem_append.mp hmem with h | h
            · rcases List.mem_map.mp h with ⟨l, _, hl⟩
              exact Effect.noConfusion hl
            · exact ih _ _ h

/-- C1: once the `try` block of `auto_control` is entered, the trace ends
with exactly one restoration call, for every exit cause (quit key,
iteration cap, interrupt caught by the inner `except`, error re-raised
after `finally`, inputs running out).  But the claim fails on the code at
one input: a KeyboardInterrupt delivered during the `time.sleep(1)` of
fan_control.py line 840 — after manual-control setup, before the `try:`
of line 842 — escapes without any restoration call, as the second
conjunct evaluates. -/
theorem auto_control_restore_exactly_once :
    (∀ (c : Config) (step : ℤ) (pwms : List String) (maxIter : Option ℕ)
       (inputs : List IterInput),
       ∃ pre, (auto_control c step pwms maxIter false inputs).1 = pre ++ [Effect.restore] ∧
         Effect.restore ∉ pre) ∧
    ((auto_control defaultConfig 5 ["PWM1"] none true []).1 = [Effect.setManual "PWM1"] ∧
     Effect.restore ∉ (auto_control defaultConfig 5 ["PWM1"] none true []).1) := by
  refine ⟨fun c step pwms maxIter inputs => ?_, by simp [auto_control], by simp [auto_control]⟩
  refine ⟨pwms.map Effect.setManual ++
    (control_loop c step pwms maxIter inputs ⟨none, 0⟩ 0).1, ?_, ?_⟩
  · simp [auto_control, List.append_assoc]
  · intro hmem
    rcases List.mem_append.mp hmem with h | h
    · rcases List.mem_map.mp h with ⟨l, _, hl⟩
      exact Effect.noConfusion hl
    · exact control_loop_no_restore c step pwms maxIter inputs ⟨none, 0⟩ 0 h

/-- When no channel's read-back raises, the shutdown loop completes:
every channel contributes its operations and every unrestored channel is
named in the report. -/
theorem restore_all_total_of_no_raise (chs : List PwmChannel)
    (h : ∀ ch ∈ chs, restore_bios_control ch ≠ Except.error ()) :
    (restore_all_bios_control chs).1 = chs.flatMap restore_channel_ops ∧
    ∃ fails n, (restore_all_bios_control chs).2 = Except.ok (fails, n) ∧
      ∀ ch ∈ chs, restore_bios_control ch = Except.ok false → ch.label ∈ fails := by
  induction chs with
  | nil => exact ⟨rfl, [], 0, rfl, by simp⟩
  | cons ch rest ih =>
    have hch : restore_bios_control ch ≠ Except.error () := h ch (by simp)
    obtain ⟨hops, fails, n, hok, hrep⟩ := ih (fun c hc => h c (List.mem_cons_of_mem ch hc))
    cases hres : restore_bios_control ch with
    | error e => cases e; exact absurd hres hch
    | ok b =>
      cases b with
      | true =>
        simp only [restore_all_bios_control, hres, hok]
        refine ⟨by rw [List.flatMap_cons, hops], fails, n + 1, rfl, ?_⟩
        intro c hc hcf
        rcases List.mem_cons.mp hc with rfl | hc2
        · rw [hres] at hcf
          exact absurd hcf (by simp)
        · exact hrep c hc2 hcf
      | false =>
        simp only [restore_all_bios_control, hres, hok]
        refine ⟨by rw [List.flatMap_cons, hops], ch.label :: fails, n, rfl, ?_⟩
        intro c hc hcf
        rcases List.mem_cons.mp hc with rfl | hc2
        · exact List.mem_cons_self _ _
        · exact List.mem_cons_of_mem _ (hrep c hc2 hcf)

/-- C5: per channel, restoration succeeds iff the enable write of `"2"`
succeeds and the read-back returns exactly `"2"`; the enable write is
always attempted, the read-back exactly when the write succeeded, and the
128 fallback is written exactly when the channel fails without raising.
Whenever no read-back raises, the loop attempts every channel, completes
without an exception and names every failed channel in its report.  But
the claim's never-raises / attempts-all guarantee fails on the code:
`read_file` catches only FileNotFoundError and PermissionError, so a
read-back whose `read_text` raises any other OSError (e.g. EIO)
propagates out of `restore_all_bios_control`; the final conjuncts
evaluate the model at such an input — the run ends in the exception right
after the first channel's enable write and read attempt, and the second,
healthy channel is never touched, reported or given the fallback. -/
theorem restore_shutdown_spec :
    (∀ ch : PwmChannel, restore_bios_control ch = Except.ok true ↔
       (ch.enable_write_ok = true ∧ ch.enable_read_back = ReadOutcome.ok "2")) ∧
    (∀ ch : PwmChannel, restore_bios_control ch = Except.error () ↔
       (ch.enable_write_ok = true ∧ ch.enable_read_back = ReadOutcome.raised)) ∧
    (∀ ch : PwmChannel,
       FileOp.writeEnable ch.label "2" ∈ restore_channel_ops ch ∧
       (FileOp.readEnable ch.label ∈ restore_channel_ops ch ↔ ch.enable_write_ok = true) ∧
       (FileOp.writePwm ch.label "128" ∈ restore_channel_ops ch ↔
          restore_bios_control ch = Except.ok false)) ∧
    (∀ chs : List PwmChannel,
       (∀ ch ∈ chs, restore_bios_control ch ≠ Except.error ()) →
       (restore_all_bios_control chs).1 = chs.flatMap restore_channel_ops ∧
       ∃ fails n, (restore_all_bios_control chs).2 = Except.ok (fails, n) ∧
         ∀ ch ∈ chs, restore_bios_control ch = Except.ok false → ch.label ∈ fails) ∧
    ((restore_all_bios_control
        [⟨"PWM1", true, ReadOutcome.raised, true⟩,
         ⟨"PWM2", true, ReadOutcome.ok "2", true⟩]).2 = Except.error () ∧
     (restore_all_bios_control
        [⟨"PWM1", true, ReadOutcome.raised, true⟩,
         ⟨"PWM2", true, ReadOutcome.ok "2", true⟩]).1 =
       [FileOp.writeEnable "PWM1" "2", FileOp.readEnable "PWM1"]) := by
  refine ⟨?_, ?_, ?_, restore_all_total_of_no_raise, rfl, rfl⟩
  · intro ch
    cases hw : ch.enable_write_ok with
    | false => cases hr : ch.enable_read_back <;> simp [restore_bios_control, hw, hr]
    | true =>
      cases hr : ch.enable_read_back with
      | raised => simp [restore_bios_control, hw, hr]
      | handled => simp [restore_bios_control, hw, hr]
      | ok v => by_cases hv : v = "2" <;> simp [restore_bios_control, hw, hr, hv]
  · intro ch
    cases hw : ch.enable_write_ok with
    | false => cases hr : ch.enable_read_back <;> simp [restore_bios_control, hw, hr]
    | true =>
      cases hr : ch.enable_read_back with
      | raised => simp [restore_bios_control, hw, hr]
      | handled => simp [restore_bios_control, hw, hr]
      | ok v => by_cases hv : v = "2" <;> simp [restore_bios_control, hw, hr, hv]
  · intro ch
    refine ⟨by simp [restore_channel_ops], ?_, ?_⟩
    · cases hw : ch.enable_write_ok with
      | false =>
        cases hres : restore_bios_control ch with
        | error e => cases e; simp [restore_channel_ops, hw, hres]
        | ok b => cases b <;> simp [restore_channel_ops, hw, hres]
      | true =>
        cases hres : restore_bios_control ch with
        | error e => cases e; simp [restore_channel_ops, hw, hres]
        | ok b => cases b <;> simp [restore_channel_ops, hw, hres]
    · cases hw : ch.enable_write_ok with
      | false =>
        cases hres : restore_bios_control ch with
        | error e => cases e; simp [restore_channel_ops, hw, hres]
        | ok b => cases b <;> simp [restore_channel_ops, hw, hres]
      | true =>
        cases hres : restore_bios_control ch with
        | error e => cases e; simp [restore_channel_ops, hw, hres]
        | ok b => cases b <;> simp [restore_channel_ops, hw, hres]

end FanCtl

namespace FanCtl

/-- Any entry a temperature sensor contributes is keyed by that sensor's
label. -/
theorem temp_entry_label {s : TempSensor} {e : String × ℚ}
    (h : temp_entry s = some e) : e.1 = s.label := by
  obtain ⟨l, d, k⟩ := s
  cases k with
  | nvidia r =>
    cases r with
    | none => simp [temp_entry] at h
    | some t =>
      simp only [temp_entry, Option.map_some'] at h
      cases Option.some.inj h
      rfl
  | sysfs r =>
    cases r with
    | unavailable => simp [temp_entry] at h
    | unparsable => simp [temp_entry] at h
    | value n =>
      simp only [temp_entry] at h
      split at h
      · exact (Option.some.inj h) ▸ rfl
      · exact Option.noConfusion h

/-- The per-tick reading of the 50 °C coretemp sensor. -/
theorem temp_entry_core : temp_entry coreSensor = some ("Core 0", 50) := by
  have h5 : ((50000 : ℤ) : ℚ) / 1000 = 50 := by norm_num
  simp only [temp_entry, coreSensor, h5]
  norm_num

/-- The per-tick reading of the 90 °C nvme sensor. -/
theorem temp_entry_nvme : temp_entry nvmeSensor = some ("Composite", 90) := by
  have h9 : ((90000 : ℤ) : ℚ) / 1000 = 90 := by norm_num
  simp only [temp_entry, nvmeSensor, h9]
  norm_num

end FanCtl

namespace FanMonitor

open FanCtl

/-- C7 fails as stated on fan_monitor.py: its `auto_control` feeds the
curve `max(self.get_temperatures().values())` — every sensor, not just
coretemp/nvidia.  With one coretemp sensor at 50 °C and one Other-category
(nvme) sensor at 90 °C, fan_monitor computes base target 255, while the
maximum over the CpuCore/Gpu control set is 50 °C, whose target is 45 —
so the Other sensor did influence the computed target. -/
theorem fm_target_uses_other_sensors :
    FanMonitor.fm_base_pwm defaultConfig mixedSensors = some 255 ∧
    fc_base_pwm defaultConfig mixedSensors = some 45 := by
  have hcore := temp_entry_core
  have hnvme := temp_entry_nvme
  have hct : control_entry coreSensor = some ("Core 0", 50) := by
    unfold control_entry
    rw [if_pos (Or.inl (show coreSensor.device_name = "coretemp" from rfl))]
    exact temp_entry_core
  constructor
  · have hts : get_temperatures mixedSensors = [("Core 0", 50), ("Composite", 90)] := by
      simp [get_temperatures, mixedSensors, List.filterMap_cons, hcore, hnvme]
    have hmax : ((get_temperatures mixedSensors).map Prod.snd).max? = some 90 := by
      rw [hts]
      simp only [List.map_cons, List.map_nil, List.max?]
      norm_num [List.foldl]
    have h90 : calculate_pwm_from_temp defaultConfig 90 = 255 := by
      unfold calculate_pwm_from_temp
      rw [if_neg (by norm_num [defaultConfig]), if_pos (by norm_num [defaultConfig])]
      rfl
    simp [FanMonitor.fm_base_pwm, hmax, h90]
  · have hcn : control_entry nvmeSensor = none := by
      simp [control_entry, nvmeSensor]
    have hts : get_control_temperatures mixedSensors = [("Core 0", 50)] := by
      simp [get_control_temperatures, mixedSensors, List.filterMap_cons, hct, hcn]
    have hmax : ((get_control_temperatures mixedSensors).map Prod.snd).max? = some 50 := by
      rw [hts]
      simp [List.max?]
    have h50 : calculate_pwm_from_temp defaultConfig 50 = 45 := by
      rw [calc_eq_interp defaultConfig 50 (by norm_num [defaultConfig])
            (by norm_num [defaultConfig])]
      norm_num [defaultConfig, truncQ]
    simp [fc_base_pwm, hmax, h50]

end FanMonitor

namespace FanCtl

/-- C7 amended (true of fan_control.py): the base target is the curve
applied to the maximum of the control temperatures, the control set is
drawn only from coretemp/nvidia devices, and prepending a sensor of any
other device changes neither the control temperatures nor the base
target. -/
theorem control_target_ignores_other_sensors (c : Config) (s : TempSensor)
    (ss : List TempSensor)
    (h : s.device_name ≠ "coretemp" ∧ s.device_name ≠ "nvidia") :
    fc_base_pwm c (s :: ss) = fc_base_pwm c ss ∧
    get_control_temperatures (s :: ss) = get_control_temperatures ss ∧
    (∀ e ∈ get_control_temperatures ss, ∃ s2 ∈ ss,
       s2.label = e.1 ∧ (s2.device_name = "coretemp" ∨ s2.device_name = "nvidia")) := by
  have hnone : control_entry s = none := by
    simp [control_entry, h.1, h.2]
  have hsk : get_control_temperatures (s :: ss) = get_control_temperatures ss := by
    simp [get_control_temperatures, List.filterMap_cons, hnone]
  refine ⟨by simp [fc_base_pwm, hsk], hsk, fun e he => ?_⟩
  rcases List.mem_filterMap.mp he with ⟨s2, hs2, hce⟩
  have hdev : s2.device_name = "coretemp" ∨ s2.device_name = "nvidia" := by
    by_contra hcon
    push_neg at hcon
    simp [control_entry, hcon.1, hcon.2] at hce
  have hte : temp_entry s2 = some e := by
    simpa [control_entry, hdev] using hce
  exact ⟨s2, hs2, (temp_entry_label hte).symm, hdev⟩

/-- Witness for the amended C7: prepending the 90 °C nvme sensor to a
coretemp-only registry leaves the control temperatures and the base
target unchanged. -/
theorem control_target_ignores_other_sensors_witness :
    fc_base_pwm defaultConfig (nvmeSensor :: [coreSensor]) =
      fc_base_pwm defaultConfig [coreSensor] ∧
    get_control_temperatures (nvmeSensor :: [coreSensor]) =
      get_control_temperatures [coreSensor] :=
  have h := control_target_ignores_other_sensors defaultConfig nvmeSensor [coreSensor]
    (by refine ⟨?_, ?_⟩ <;> simp [nvmeSensor])
  ⟨h.1, h.2.1⟩

/-- C8 fails as stated: a candidate whose first read yields nothing
(`read_file` returned None or the file was empty — a falsy value) skips
the validation block of `_detect_hardware` entirely and is accepted into
the registry, although it has no reading r with 0 < r ≤ 120. -/
theorem discovery_accepts_unreadable :
    discover_accepts RawReading.unavailable = true ∧
    (¬ ∃ n : ℤ, RawReading.unavailable = RawReading.value n) ∧
    detect_temp_sensors [⟨"acpitz_temp1", "acpitz", RawReading.unavailable⟩] =
      [⟨"acpitz_temp1", "acpitz", RawReading.unavailable⟩] := by
  refine ⟨rfl, ?_, rfl⟩
  rintro ⟨n, h⟩
  exact RawReading.noConfusion h

/-- C8 amended: discovery accepts a candidate iff its first reading is
unavailable (falsy, validation skipped) or parses to a value r with
0 < r ≤ 120 °C; in particular an unparsable reading or one outside the
range — such as −5000 millidegrees — is rejected, permanently, since the
registry is built once. -/
theorem discover_accepts_iff (r : RawReading) :
    discover_accepts r = true ↔
      (r = RawReading.unavailable ∨
       ∃ n : ℤ, r = RawReading.value n ∧
         0 < (n : ℚ) / 1000 ∧ (n : ℚ) / 1000 ≤ 120) := by
  cases r with
  | unavailable => simp [discover_accepts]
  | unparsable => simp [discover_accepts]
  | value n =>
    by_cases hc : (n : ℚ) / 1000 ≤ 0 ∨ (n : ℚ) / 1000 > 120
    · simp only [discover_accepts, if_pos hc]
      constructor
      · intro h; exact Bool.noConfusion h
      · rintro (h | ⟨m, hm, h1, h2⟩)
        · exact RawReading.noConfusion h
        · obtain rfl : n = m := RawReading.value.inj hm
          rcases hc with h | h <;> linarith
    · push_neg at hc
      simp only [discover_accepts, if_neg (by push_neg; exact hc :
        ¬ ((n : ℚ) / 1000 ≤ 0 ∨ (n : ℚ) / 1000 > 120))]
      simp only [true_iff]
      exact Or.inr ⟨n, rfl, hc.1, hc.2⟩

/-- C10: a sysfs source reading exactly 120.0 °C (120000 millidegrees)
passes the discovery filter (which rejects only r ≤ 0 or r > 120) and is
registered, yet both per-tick readers demand a reading strictly below
120, so on such a tick the source contributes no entry to either
mapping. -/
theorem limit_reading_registered_but_unread :
    discover_accepts (RawReading.value 120000) = true ∧
    temp_entry limitSensor = none ∧
    control_entry limitSensor = none ∧
    get_temperatures [limitSensor] = [] ∧
    get_control_temperatures [limitSensor] = [] := by
  have h120 : ((120000 : ℤ) : ℚ) / 1000 = 120 := by norm_num
  have hacc : discover_accepts (RawReading.value 120000) = true := by
    simp only [discover_accepts, h120]
    norm_num
  have hte : temp_entry limitSensor = none := by
    simp only [temp_entry, limitSensor, h120]
    norm_num
  have hce : control_entry limitSensor = none := by
    unfold control_entry
    rw [if_pos (Or.inl (show limitSensor.device_name = "coretemp" from rfl))]
    exact hte
  refine ⟨hacc, hte, hce, ?_, ?_⟩
  · simp [get_temperatures, List.filterMap_cons, hte]
  · simp [get_control_temperatures, List.filterMap_cons, hce]

end FanCtl

namespace FanMonitor

open FanCtl

/-- C9 fails as stated on fan_monitor.py: its `get_fan_speeds` keeps a
parsed reading only when `rpm > 0`, so the fan reading exactly 0 RPM is
filtered out of the mapping — while fan_control.py keeps it. -/
theorem fan_monitor_drops_zero_rpm :
    stoppedFan.reading = RawReading.value 0 ∧
    FanMonitor.get_fan_speeds [stoppedFan] = [] ∧
    FanCtl.get_fan_speeds [stoppedFan] = [("fan1", 0)] := by
  refine ⟨rfl, ?_, rfl⟩
  simp [FanMonitor.get_fan_speeds, FanMonitor.fan_entry, stoppedFan]

/-- C9 amended: for every fan sensor whose file parses as an integer n,
fan_control.py's `get_fan_speeds` includes its entry — 0 RPM included —
while fan_monitor.py's includes it only when n > 0. -/
theorem fan_speeds_zero_handling (ss : List FanSensor) (s : FanSensor) (n : ℤ)
    (h : s.reading = RawReading.value n) :
    FanCtl.fan_entry s = some (s.label, n) ∧
    FanMonitor.fan_entry s = (if 0 < n then some (s.label, n) else none) ∧
    (s ∈ ss → (s.label, n) ∈ FanCtl.get_fan_speeds ss) := by
  refine ⟨by simp [FanCtl.fan_entry, h], by simp [FanMonitor.fan_entry, h], fun hm => ?_⟩
  exact List.mem_filterMap.mpr ⟨s, hm, by simp [FanCtl.fan_entry, h]⟩

/-- Witness for the amended C9 at the stopped fan: kept by fan_control,
dropped by fan_monitor. -/
theorem fan_speeds_zero_handling_witness :
    FanCtl.fan_entry stoppedFan = some ("fan1", 0) ∧
    FanMonitor.fan_entry stoppedFan = none := by
  have h := fan_speeds_zero_handling [stoppedFan] stoppedFan 0 rfl
  exact ⟨h.1, by rw [h.2.1]; norm_num⟩

end FanMonitor
